import Mathlib

/-!
Shallow embedding of the authentication core of the EduManage ERP server
(`src/server/db.ts` auth section, route middleware and user routes in
`src/unnamed/part_007`, in-memory storage in `src/unnamed/part_008`),
together with proofs of the spec's testable properties.

Buffers are `List Byte` with `Byte := Fin 256`.  The scrypt key-derivation
primitive is an external collaborator of the core (Node `crypto.scrypt`);
we model it as an explicit function parameter `kdf : KDF` threaded through
the definitions, exactly at the call site `scryptAsync(password, salt, 64)`.
-/

set_option maxRecDepth 4000

namespace ERP

/-- A byte, as stored in a Node `Buffer`. -/
abbrev Byte := Fin 256

instance {ε α : Type} [DecidableEq ε] [DecidableEq α] : DecidableEq (Except ε α) := fun a b =>
  match a, b with
  | .ok x, .ok y =>
    if h : x = y then .isTrue (h ▸ rfl) else .isFalse fun c => h (Except.ok.inj c)
  | .error x, .error y =>
    if h : x = y then .isTrue (h ▸ rfl) else .isFalse fun c => h (Except.error.inj c)
  | .ok _, .error _ => .isFalse fun c => Except.noConfusion c
  | .error _, .ok _ => .isFalse fun c => Except.noConfusion c

/-- Lowercase hex digit for a value `< 16`, as produced by
`Buffer.toString("hex")`. -/
def hexDigitChar (n : Nat) : Char :=
  if n < 10 then Char.ofNat (48 + n) else Char.ofNat (87 + n)

/-- Numeric value of a hex digit character, `none` on a non-hex character
(Node accepts both cases on decode). -/
def hexVal (c : Char) : Option Nat :=
  if 48 ≤ c.toNat ∧ c.toNat ≤ 57 then some (c.toNat - 48)
  else if 97 ≤ c.toNat ∧ c.toNat ≤ 102 then some (c.toNat - 87)
  else if 65 ≤ c.toNat ∧ c.toNat ≤ 70 then some (c.toNat - 55)
  else none

/-- `Buffer.toString("hex")`: two lowercase hex digits per byte. -/
def bufToHexChars : List Byte → List Char
  | [] => []
  | b :: rest => hexDigitChar (b.val / 16) :: hexDigitChar (b.val % 16) :: bufToHexChars rest

/-- `Buffer.from(s, "hex")`: consume hex-digit pairs, stopping at the first
invalid pair or odd trailing character (Node semantics). -/
def bufFromHexChars : List Char → List Byte
  | c1 :: c2 :: rest =>
    match hexVal c1, hexVal c2 with
    | some h, some l =>
      if hh : 16 * h + l < 256 then
        (⟨16 * h + l, hh⟩ : Byte) :: bufFromHexChars rest
      else []
    | _, _ => []
  | _ => []

def bufToHex (b : List Byte) : String := ⟨bufToHexChars b⟩

def bufFromHex (s : String) : List Byte := bufFromHexChars s.data

/-- JavaScript `str.split(".")` (single-character string separator):
the list of maximal `'.'`-free groups; never empty. -/
def splitDotChars : List Char → List (List Char)
  | [] => [[]]
  | c :: rest =>
    if c = '.' then [] :: splitDotChars rest
    else
      match splitDotChars rest with
      | [] => [[c]]
      | g :: gs => (c :: g) :: gs

def splitDot (s : String) : List String :=
  (splitDotChars s.data).map fun l => ⟨l⟩

/-- The external scrypt collaborator: `scryptAsync(password, salt, keylen)`
returning the derived key bytes.  Any concrete deterministic function stands
for it; the core's properties hold for all of them. -/
def KDF := String → String → Nat → List Byte

/-- `crypto.timingSafeEqual(a, b)`: errors (throws) when the buffer lengths
differ, otherwise compares contents. -/
def timingSafeEqual (a b : List Byte) : Except String Bool :=
  if a.length = b.length then .ok (decide (a = b))
  else .error "ERR_CRYPTO_TIMING_SAFE_EQUAL_LENGTH"

/-- `hashPassword` (src/server/db.ts:35-39): the fresh 16 random bytes from
`randomBytes(16)` are the `randomness` argument; the salt is their hex
encoding; the digest is `hex(scrypt(password, salt, 64)) ++ "." ++ salt`. -/
def hashPassword (kdf : KDF) (randomness : List Byte) (password : String) : String :=
  let salt := bufToHex randomness
  let buf := kdf password salt 64
  bufToHex buf ++ "." ++ salt

/-- `comparePasswords` (src/server/db.ts:41-46): split the stored digest on
`"."` into hash and salt; a missing salt component makes the scrypt call
throw (`undefined` salt); then hex-decode the hash and compare with
`timingSafeEqual`, which throws on a byte-length mismatch. -/
def comparePasswords (kdf : KDF) (supplied stored : String) : Except String Bool :=
  match (splitDot stored)[1]? with
  | none => .error "ERR_INVALID_ARG_TYPE_salt"
  | some salt =>
    timingSafeEqual (bufFromHex ((splitDot stored).headD "")) (kdf supplied salt 64)

/-! ## Data model (shared schema, src/unnamed/part_000 and part_008) -/

/-- A user record (the `users` table row; `createdAt` as an integer
timestamp). -/
structure UserRec where
  id : Nat
  username : String
  password : String
  firstName : String
  lastName : String
  email : String
  role : String
  avatarUrl : Option String
  createdAt : Nat
  deriving DecidableEq, Repr

/-- The insert shape for a user (`InsertUser`): everything but the
generated `id` and `createdAt`. -/
structure InsertUser where
  username : String
  password : String
  firstName : String
  lastName : String
  email : String
  role : String
  avatarUrl : Option String
  deriving DecidableEq, Repr

/-- `Partial<InsertUser>`: each field optionally patched. -/
structure UpdateUser where
  username : Option String := none
  password : Option String := none
  firstName : Option String := none
  lastName : Option String := none
  email : Option String := none
  role : Option String := none
  avatarUrl : Option (Option String) := none
  deriving DecidableEq, Repr

/-- JS object spread `{ ...user, ...userData }` for a user patch. -/
def applyUserPatch (u : UserRec) (p : UpdateUser) : UserRec :=
  { u with
    username := p.username.getD u.username
    password := p.password.getD u.password
    firstName := p.firstName.getD u.firstName
    lastName := p.lastName.getD u.lastName
    email := p.email.getD u.email
    role := p.role.getD u.role
    avatarUrl := p.avatarUrl.getD u.avatarUrl }

/-- A student record linked to a user (`students` table row;
`dateEnrolled` as an integer timestamp). -/
structure StudentRec where
  id : Nat
  userId : Nat
  studentId : String
  grade : String
  dateEnrolled : Nat
  status : String
  parentName : Option String
  parentEmail : Option String
  parentPhone : Option String
  address : Option String
  deriving DecidableEq, Repr

/-- The insert shape for a student (`InsertStudent`). -/
structure InsertStudent where
  userId : Nat
  studentId : String
  grade : String
  dateEnrolled : Nat
  status : String
  parentName : Option String
  parentEmail : Option String
  parentPhone : Option String
  address : Option String
  deriving DecidableEq, Repr

/-- An activity-log record (`activities` table row; metadata as key/value
pairs, timestamp as integer). -/
structure ActivityRec where
  id : Nat
  userId : Nat
  activityType : String
  description : String
  metadata : List (String × String)
  timestamp : Nat
  deriving DecidableEq, Repr

/-- The insert shape for an activity (`InsertActivity`). -/
structure InsertActivity where
  userId : Nat
  activityType : String
  description : String
  metadata : List (String × String)
  deriving DecidableEq, Repr

/-- The in-memory storage state (`MemStorage`, src/unnamed/part_008):
JS `Map`s in insertion order, plus the id counters.  Only the collections
the authentication core touches are modelled. -/
structure MemStorage where
  users : List UserRec
  students : List StudentRec
  activities : List ActivityRec
  currentUserId : Nat
  currentStudentId : Nat
  currentActivityId : Nat
  deriving DecidableEq, Repr

/-- The fresh storage from the `MemStorage` constructor (sample data
initialisation is empty). -/
def MemStorage.empty : MemStorage :=
  { users := [], students := [], activities := []
    currentUserId := 1, currentStudentId := 1, currentActivityId := 1 }

/-- `storage.getUser(id)`: `Map.get` on the id-keyed map. -/
def getUser (s : MemStorage) (id : Nat) : Option UserRec :=
  s.users.find? fun u => u.id = id

/-- `storage.getUserByUsername(username)`: `Array.from(values()).find(...)`,
the first user (in insertion order) with the given username. -/
def getUserByUsername (s : MemStorage) (username : String) : Option UserRec :=
  s.users.find? fun u => u.username = username

/-- `storage.createUser(insertUser)`: allocate `currentUserId++`, stamp
`createdAt`, and `Map.set` (append, since the id is fresh). -/
def createUser (s : MemStorage) (ins : InsertUser) (now : Nat) : UserRec × MemStorage :=
  let id := s.currentUserId
  let user : UserRec :=
    { id := id, username := ins.username, password := ins.password
      firstName := ins.firstName, lastName := ins.lastName, email := ins.email
      role := ins.role, avatarUrl := ins.avatarUrl, createdAt := now }
  (user, { s with users := s.users ++ [user], currentUserId := id + 1 })

/-- Replace the first user with the given id (JS `Map.set` on an existing
key keeps its position). -/
def setUserById (users : List UserRec) (id : Nat) (u' : UserRec) : List UserRec :=
  match users with
  | [] => []
  | u :: rest => if u.id = id then u' :: rest else u :: setUserById rest id u'

/-- `storage.updateUser(id, patch)`: merge the patch over the stored user;
`none` when the id is absent. -/
def updateUser (s : MemStorage) (id : Nat) (p : UpdateUser) :
    Option UserRec × MemStorage :=
  match getUser s id with
  | none => (none, s)
  | some u =>
    let u' := applyUserPatch u p
    (some u', { s with users := setUserById s.users id u' })

/-- `storage.getStudentByUserId(userId)`: first student linked to the
user. -/
def getStudentByUserId (s : MemStorage) (userId : Nat) : Option StudentRec :=
  s.students.find? fun st => st.userId = userId

/-- `storage.createStudent(insertStudent)`. -/
def createStudent (s : MemStorage) (ins : InsertStudent) : StudentRec × MemStorage :=
  let id := s.currentStudentId
  let st : StudentRec :=
    { id := id, userId := ins.userId, studentId := ins.studentId
      grade := ins.grade, dateEnrolled := ins.dateEnrolled, status := ins.status
      parentName := ins.parentName, parentEmail := ins.parentEmail
      parentPhone := ins.parentPhone, address := ins.address }
  (st, { s with students := s.students ++ [st], currentStudentId := id + 1 })

/-- `storage.createActivity(insertActivity)`. -/
def createActivity (s : MemStorage) (ins : InsertActivity) (now : Nat) :
    ActivityRec × MemStorage :=
  let id := s.currentActivityId
  let a : ActivityRec :=
    { id := id, userId := ins.userId, activityType := ins.activityType
      description := ins.description, metadata := ins.metadata, timestamp := now }
  (a, { s with activities := s.activities ++ [a], currentActivityId := id + 1 })

/-! ## Authentication core (src/server/db.ts) -/

/-- The principal bound to a request: the user record plus the
role-linked student profile (`{ ...user, studentInfo }`). -/
structure Principal where
  user : UserRec
  studentInfo : Option StudentRec
  deriving DecidableEq, Repr

/-- Load the role-linked data: `if (user.role === "student")
studentInfo = await storage.getStudentByUserId(user.id)`. -/
def loadStudentInfo (s : MemStorage) (u : UserRec) : Option StudentRec :=
  if u.role = "student" then getStudentByUserId s u.id else none

/-- The `LocalStrategy` verify callback (src/server/db.ts:68-87):
look up by username; a missing user or a false comparison yields
`done(null, false)` (modelled `.ok none`); a comparison that throws is
caught and becomes `done(error)` (modelled `.error`); success yields the
populated principal. -/
def verifyLocal (kdf : KDF) (s : MemStorage) (username password : String) :
    Except String (Option Principal) :=
  match getUserByUsername s username with
  | none => .ok none
  | some user =>
    match comparePasswords kdf password user.password with
    | .error e => .error e
    | .ok false => .ok none
    | .ok true => .ok (some ⟨user, loadStudentInfo s user⟩)

/-- `passport.serializeUser`: the session payload is just `user.id`. -/
def serializeUser (p : Principal) : Nat := p.user.id

/-- `passport.deserializeUser` (src/server/db.ts:93-110): re-fetch the
current user by id; a missing user is `done(null, false)` (modelled
`none`); otherwise rebuild the principal with freshly loaded student
info. -/
def deserializeUser (s : MemStorage) (id : Nat) : Option Principal :=
  match getUser s id with
  | none => none
  | some user => some ⟨user, loadStudentInfo s user⟩

/-! ### Session lifecycle

The session backing store is an external collaborator (`express-session`
with `storage.sessionStore`; spec §6).  Modelled from the spec: a
server-side key-value record from session id to the serialized principal
(the user id, per `serializeUser`); `destroySession` removes the record
(`req.logout`/session destruction), `resolveSession` looks it up and runs
`deserializeUser` on the stored id. -/

/-- The session store state: session id to serialized user id, in
insertion order. -/
abbrev Sessions := List (String × Nat)

/-- Modelled from the spec: `createSession` records `sid ↦ serializeUser p`
in the session store (login binds the principal's user id to the fresh
session id). -/
def createSession (sess : Sessions) (sid : String) (p : Principal) : Sessions :=
  (sid, serializeUser p) :: sess

/-- Modelled from the spec: `resolveSession` looks up the session record
and re-derives the principal from current storage via `deserializeUser`
(src/server/db.ts:93-110); a missing record is unauthenticated. -/
def resolveSession (s : MemStorage) (sess : Sessions) (sid : String) :
    Option Principal :=
  match sess.lookup sid with
  | none => none
  | some uid => deserializeUser s uid

/-- Modelled from the spec: `destroySession` removes the session record;
removing an absent record is a no-op, not an error. -/
def destroySession (sess : Sessions) (sid : String) : Sessions :=
  sess.filter fun p => p.1 ≠ sid

/-! ## HTTP layer -/

/-- An HTTP response as the routes build them: a status code and either a
JSON message or a returned principal (whose `password` field the routes
blank out — the blanking itself is not part of the state we track). -/
inductive HttpResponse where
  | msg (status : Nat) (message : String)
  | user (status : Nat) (p : Principal)
  | err (e : String)
  deriving DecidableEq, Repr

/-- The body of `POST /api/register` (src/server/db.ts:112-159): the
insert-user fields plus the optional student fields read from
`req.body`. -/
structure RegisterRequest where
  username : String
  password : String
  firstName : String
  lastName : String
  email : String
  role : String
  avatarUrl : Option String
  grade : Option String
  parentName : Option String
  parentEmail : Option String
  parentPhone : Option String
  address : Option String
  deriving DecidableEq, Repr

/-- `POST /api/register` (src/server/db.ts:112-159).  `randomness` is the
output of `randomBytes(16)` inside `hashPassword`; `studentRand` the
random student-id draw; `now` the clock; `sid` the fresh session id
`req.login` binds.  Returns the response with the updated storage and
session store. -/
def registerRoute (kdf : KDF) (randomness : List Byte) (studentRand : Nat)
    (now : Nat) (sid : String) (s : MemStorage) (sess : Sessions)
    (req : RegisterRequest) : HttpResponse × MemStorage × Sessions :=
  match getUserByUsername s req.username with
  | some _ => (.msg 400 "Username already exists", s, sess)
  | none =>
    let userData : InsertUser :=
      { username := req.username, password := hashPassword kdf randomness req.password
        firstName := req.firstName, lastName := req.lastName, email := req.email
        role := req.role, avatarUrl := req.avatarUrl }
    let (user, s1) := createUser s userData now
    let (studentInfo, s2) :=
      if user.role = "student" then
        let studentId := "ST" ++ toString (10000 + studentRand % 90000)
        let (st, s') := createStudent s1
          { userId := user.id, studentId := studentId
            grade := req.grade.getD "Not assigned", dateEnrolled := now
            status := "active", parentName := req.parentName
            parentEmail := req.parentEmail, parentPhone := req.parentPhone
            address := req.address }
        (some st, s')
      else (none, s1)
    let (_, s3) := createActivity s2
      { userId := user.id, activityType := "USER_REGISTERED"
        description := "User " ++ user.username ++ " registered with role " ++ user.role
        metadata := [("id", toString user.id), ("role", user.role)] } now
    let p : Principal := ⟨user, studentInfo⟩
    (.user 201 p, s3, createSession sess sid p)

/-- `POST /api/login` (src/server/db.ts:161-186): run the local strategy;
an error goes to `next(err)`; no user yields
`401 {"Invalid username or password"}`; otherwise `req.login` binds the
session, the login activity is recorded and the principal is returned. -/
def loginRoute (kdf : KDF) (now : Nat) (sid : String) (s : MemStorage)
    (sess : Sessions) (username password : String) :
    HttpResponse × MemStorage × Sessions :=
  match verifyLocal kdf s username password with
  | .error e => (.err e, s, sess)
  | .ok none => (.msg 401 "Invalid username or password", s, sess)
  | .ok (some p) =>
    let (_, s1) := createActivity s
      { userId := p.user.id, activityType := "USER_LOGIN"
        description := "User " ++ p.user.username ++ " logged in"
        metadata := [("id", toString p.user.id), ("role", p.user.role)] } now
    (.user 200 p, s1, createSession sess sid p)

/-- `POST /api/logout` (src/server/db.ts:188-205): if a principal resolves
for the request's session, log the logout activity; then `req.logout`
destroys the session and the route answers 200. -/
def logoutRoute (now : Nat) (s : MemStorage) (sess : Sessions) (sid : String) :
    HttpResponse × MemStorage × Sessions :=
  let s1 :=
    match resolveSession s sess sid with
    | some p =>
      (createActivity s
        { userId := p.user.id, activityType := "USER_LOGOUT"
          description := "User " ++ p.user.username ++ " logged out"
          metadata := [("id", toString p.user.id), ("role", p.user.role)] } now).2
    | none => s
  (.msg 200 "OK", s1, destroySession sess sid)

/-! ## Authorization guard (src/unnamed/part_007) -/

/-- Outcome of a middleware layer: pass the request on, or reject it. -/
inductive GuardResult where
  | next
  | reject (status : Nat) (message : String)
  deriving DecidableEq, Repr

/-- `isAuthenticated` middleware (part_007:13-18): `req.isAuthenticated()`
is modelled by whether a principal is bound to the request. -/
def isAuthenticated (reqUser : Option Principal) : GuardResult :=
  match reqUser with
  | some _ => .next
  | none => .reject 401 "Not authenticated"

/-- `hasRole(roles)` middleware (part_007:21-34): first the
authentication check, then `roles.includes(user.role)`. -/
def hasRole (roles : List String) (reqUser : Option Principal) : GuardResult :=
  match reqUser with
  | none => .reject 401 "Not authenticated"
  | some p =>
    if roles.contains p.user.role then .next
    else .reject 403 "Forbidden: insufficient permissions"

/-- `POST /api/users` handler body (part_007:109-125), reached behind
`isAuthenticated` and `hasRole(["admin"])`: the code reads
`req.body.password` into a variable named `hashedPassword` but never uses
it — `storage.createUser(req.body)` receives the request body as-is. -/
def createUserRoute (adminUser : UserRec) (now : Nat) (s : MemStorage)
    (req : InsertUser) : HttpResponse × MemStorage :=
  let (user, s1) := createUser s req now
  let (_, s2) := createActivity s1
    { userId := adminUser.id, activityType := "USER_CREATED"
      description := "Admin created user " ++ user.username ++ " with role " ++ user.role
      metadata := [("userId", toString user.id), ("role", user.role)] } now
  (.user 201 ⟨user, none⟩, s2)

/-- The route chain `isAuthenticated, hasRole(roles)` guarding the
protected user-management routes (part_007:100-156). -/
def requireRole (roles : List String) (reqUser : Option Principal) : GuardResult :=
  match isAuthenticated reqUser with
  | .reject st m => .reject st m
  | .next => hasRole roles reqUser

/-! ## Hex encoding lemmas -/

lemma hexVal_hexDigitChar : ∀ n : Fin 16, hexVal (hexDigitChar n.val) = some n.val := by
  decide

lemma hexDigitChar_ne_dot : ∀ n : Fin 16, hexDigitChar n.val ≠ '.' := by
  decide

lemma div16_lt (b : Byte) : b.val / 16 < 16 :=
  (Nat.div_lt_iff_lt_mul (by norm_num)).2 b.isLt

lemma mod16_lt (b : Byte) : b.val % 16 < 16 :=
  Nat.mod_lt _ (by norm_num)

lemma dot_not_mem_bufToHexChars (bs : List Byte) : '.' ∉ bufToHexChars bs := by
  induction bs with
  | nil => simp [bufToHexChars]
  | cons b rest ih =>
    simp only [bufToHexChars, List.mem_cons]
    push_neg
    refine ⟨?_, ?_, ih⟩
    · exact fun h => hexDigitChar_ne_dot ⟨b.val / 16, div16_lt b⟩ h.symm
    · exact fun h => hexDigitChar_ne_dot ⟨b.val % 16, mod16_lt b⟩ h.symm

lemma bufFromHexChars_bufToHexChars (bs : List Byte) :
    bufFromHexChars (bufToHexChars bs) = bs := by
  induction bs with
  | nil => rfl
  | cons b rest ih =>
    simp only [bufToHexChars, bufFromHexChars,
      hexVal_hexDigitChar ⟨b.val / 16, div16_lt b⟩,
      hexVal_hexDigitChar ⟨b.val % 16, mod16_lt b⟩]
    have hb : 16 * (b.val / 16) + b.val % 16 = b.val := Nat.div_add_mod b.val 16
    have hlt : 16 * (b.val / 16) + b.val % 16 < 256 := by
      rw [hb]; exact b.isLt
    simp only [hlt, dite_true, ih]
    congr 1
    exact Fin.ext hb

lemma bufToHexChars_injective : Function.Injective bufToHexChars := by
  intro a b h
  have := congrArg bufFromHexChars h
  rwa [bufFromHexChars_bufToHexChars, bufFromHexChars_bufToHexChars] at this

lemma splitDotChars_no_dot (l : List Char) (h : '.' ∉ l) : splitDotChars l = [l] := by
  induction l with
  | nil => rfl
  | cons c rest ih =>
    simp only [List.mem_cons, not_or] at h
    simp only [splitDotChars, if_neg (Ne.symm h.1)]
    rw [ih h.2]

lemma splitDotChars_append (l1 l2 : List Char) (h : '.' ∉ l1) :
    splitDotChars (l1 ++ '.' :: l2) = l1 :: splitDotChars l2 := by
  induction l1 with
  | nil => simp [splitDotChars]
  | cons c rest ih =>
    simp only [List.mem_cons, not_or] at h
    simp only [List.cons_append, splitDotChars, if_neg (Ne.symm h.1)]
    rw [show rest.append ('.' :: l2) = rest ++ '.' :: l2 from rfl, ih h.2]

lemma string_append_data (a b : List Char) :
    ((⟨a⟩ : String) ++ (⟨b⟩ : String)).data = a ++ b := rfl

/-- Splitting a well-formed digest `hex(buf) ++ "." ++ hex(salt)` on the
dot recovers exactly the two hex components. -/
lemma splitDot_digest (a b : List Byte) :
    splitDot (bufToHex a ++ "." ++ bufToHex b) = [bufToHex a, bufToHex b] := by
  have hdata : (bufToHex a ++ "." ++ bufToHex b).data
      = bufToHexChars a ++ '.' :: bufToHexChars b := by
    show ((⟨bufToHexChars a⟩ : String) ++ (⟨['.']⟩ : String)
        ++ (⟨bufToHexChars b⟩ : String)).data = _
    simp [string_append_data, String.data]
  unfold splitDot
  rw [hdata, splitDotChars_append _ _ (dot_not_mem_bufToHexChars a),
    splitDotChars_no_dot _ (dot_not_mem_bufToHexChars b)]
  rfl

/-- The hash/verify round-trip, for any key-derivation collaborator and
any salt randomness. -/
lemma compare_hash_roundtrip (kdf : KDF) (randomness : List Byte)
    (p : String) :
    comparePasswords kdf p (hashPassword kdf randomness p) = .ok true := by
  unfold hashPassword comparePasswords
  rw [show bufToHex (kdf p (bufToHex randomness) 64) ++ "." ++ bufToHex randomness
      = bufToHex (kdf p (bufToHex randomness) 64) ++ "." ++ bufToHex randomness from rfl,
    splitDot_digest]
  simp only [List.getElem?_cons_succ, List.getElem?_cons_zero, List.headD_cons]
  rw [bufFromHex, bufToHex, bufFromHexChars_bufToHexChars]
  unfold timingSafeEqual
  simp

/-! ## Concrete sample values

Small concrete stand-ins used to evaluate the embedded code on closed
inputs: a one-byte key-derivation function depending only on the password
length, and a tiny user store. -/

/-- A concrete one-byte key-derivation function (stand-in for scrypt in
closed evaluations). -/
def kdfA : KDF := fun pw _salt _keylen => [⟨pw.length % 256, Nat.mod_lt _ (by norm_num)⟩]

/-- Sample admin user record. -/
def adminSample : UserRec :=
  { id := 1, username := "admin", password := "x", firstName := "Ad"
    lastName := "Min", email := "a@x", role := "admin", avatarUrl := none
    createdAt := 0 }

/-- Sample teacher "alice"; her digest is `hashPassword kdfA [0xab] "abc"`,
i.e. the digest of password "abc" under `kdfA` with salt byte `0xab`. -/
def aliceSample : UserRec :=
  { id := 7, username := "alice", password := "03.ab", firstName := "A"
    lastName := "L", email := "al@x", role := "teacher", avatarUrl := none
    createdAt := 0 }

/-- Sample store holding alice. -/
def storeSample : MemStorage :=
  { MemStorage.empty with users := [aliceSample], currentUserId := 8 }

/-- Alice as a request principal. -/
def teacherPrincipal : Principal := ⟨aliceSample, none⟩

/-- The admin as a request principal. -/
def adminPrincipal : Principal := ⟨adminSample, none⟩

/-! ## Claim theorems -/

/-- C1: for every key-derivation collaborator, every draw of the salt
randomness and every password `p`, verifying `p` against the digest
produced by hashing `p` succeeds: `comparePasswords p (hashPassword p)`
returns true. -/
theorem verify_hash_roundtrip (kdf : KDF) (randomness : List Byte) (p : String) :
    comparePasswords kdf p (hashPassword kdf randomness p) = .ok true :=
  compare_hash_roundtrip kdf randomness p

/-- C8: distinct salt draws yield distinct digests for the same password,
and both digests verify against the password. -/
theorem hashPassword_salt_randomization (kdf : KDF) (p : String)
    (s1 s2 : List Byte) (h : s1 ≠ s2) :
    hashPassword kdf s1 p ≠ hashPassword kdf s2 p ∧
    comparePasswords kdf p (hashPassword kdf s1 p) = .ok true ∧
    comparePasswords kdf p (hashPassword kdf s2 p) = .ok true := by
  refine ⟨?_, compare_hash_roundtrip kdf s1 p, compare_hash_roundtrip kdf s2 p⟩
  intro he
  apply h
  have hd := congrArg splitDot he
  rw [show hashPassword kdf s1 p
      = bufToHex (kdf p (bufToHex s1) 64) ++ "." ++ bufToHex s1 from rfl,
    show hashPassword kdf s2 p
      = bufToHex (kdf p (bufToHex s2) 64) ++ "." ++ bufToHex s2 from rfl,
    splitDot_digest, splitDot_digest] at hd
  simp only [List.cons.injEq] at hd
  exact bufToHexChars_injective (congrArg String.data hd.2.1)

/-- C8 witness: the digests of "pw" under two distinct 16-byte salts
differ and both verify. -/
theorem hashPassword_salt_randomization_witness :
    hashPassword kdfA (List.replicate 16 ((0 : Fin 256) : Byte)) "pw"
      ≠ hashPassword kdfA (List.replicate 16 ((1 : Fin 256) : Byte)) "pw" ∧
    comparePasswords kdfA "pw"
      (hashPassword kdfA (List.replicate 16 ((0 : Fin 256) : Byte)) "pw") = .ok true ∧
    comparePasswords kdfA "pw"
      (hashPassword kdfA (List.replicate 16 ((1 : Fin 256) : Byte)) "pw") = .ok true :=
  hashPassword_salt_randomization kdfA "pw" _ _ (by decide)

/-- C3 counterexample: on the malformed digest "nodelimiter" (no '.'),
`comparePasswords` does not return false — the derivation call with the
missing (undefined) salt raises instead. -/
theorem comparePasswords_malformed_throws :
    comparePasswords kdfA "pw" "nodelimiter" = .error "ERR_INVALID_ARG_TYPE_salt" ∧
    comparePasswords kdfA "pw" "nodelimiter" ≠ .ok false := by
  decide

/-- C3 amended: on a malformed digest — one whose dot-split has no salt
component, or whose hash component decodes to a byte length different from
the derived key's — `comparePasswords` propagates an error; it never
returns false for such input. -/
theorem comparePasswords_malformed_errors (kdf : KDF) (p d : String)
    (h : ∀ salt, (splitDot d)[1]? = some salt →
      (bufFromHex ((splitDot d).headD "")).length ≠ (kdf p salt 64).length) :
    ∃ e, comparePasswords kdf p d = .error e := by
  unfold comparePasswords
  cases hs : (splitDot d)[1]? with
  | none => exact ⟨_, rfl⟩
  | some salt =>
    have hne := h salt hs
    refine ⟨"ERR_CRYPTO_TIMING_SAFE_EQUAL_LENGTH", ?_⟩
    show timingSafeEqual (bufFromHex ((splitDot d).headD "")) (kdf p salt 64)
      = Except.error "ERR_CRYPTO_TIMING_SAFE_EQUAL_LENGTH"
    unfold timingSafeEqual
    rw [if_neg hne]

/-- C3 amended witness: the no-delimiter digest "nodot" errors. -/
theorem comparePasswords_malformed_errors_witness :
    ∃ e, comparePasswords kdfA "pw" "nodot" = .error e :=
  comparePasswords_malformed_errors kdfA "pw" "nodot" (by
    intro salt hs
    rw [show (splitDot "nodot")[1]? = (none : Option String) from by decide] at hs
    cases hs)

/-- C2: demonstrates the admin user-creation route storing the plaintext.
`POST /api/users` with password "plain-secret" leaves the user record's
password field equal to the plaintext (no '.'-separated digest shape), so
the created user's own login attempt with the correct password makes the
local strategy raise instead of verifying. -/
theorem createUserRoute_stores_plaintext :
    (((createUserRoute adminSample 5 MemStorage.empty
        { username := "eve", password := "plain-secret", firstName := "E"
          lastName := "V", email := "e@x", role := "teacher"
          avatarUrl := none }).2.users.map fun u => (u.username, u.password))
      = [("eve", "plain-secret")]) ∧
    splitDot "plain-secret" = ["plain-secret"] ∧
    verifyLocal kdfA
      (createUserRoute adminSample 5 MemStorage.empty
        { username := "eve", password := "plain-secret", firstName := "E"
          lastName := "V", email := "e@x", role := "teacher"
          avatarUrl := none }).2
      "eve" "plain-secret" = .error "ERR_INVALID_ARG_TYPE_salt" := by
  decide

/-- C4: a login whose username is absent from the store and a login whose
password fails verification against an existing user's digest produce the
very same outcome: the identical 401 response with the generic message,
and the identical (unchanged) storage and session state. -/
theorem login_failures_indistinguishable (kdf : KDF) (now1 now2 : Nat)
    (sid1 sid2 : String) (s : MemStorage) (sess : Sessions)
    (u1 p1 u2 p2 : String) (user : UserRec)
    (h1 : getUserByUsername s u1 = none)
    (h2 : getUserByUsername s u2 = some user)
    (h3 : comparePasswords kdf p2 user.password = .ok false) :
    loginRoute kdf now1 sid1 s sess u1 p1 = loginRoute kdf now2 sid2 s sess u2 p2 ∧
    loginRoute kdf now1 sid1 s sess u1 p1
      = (.msg 401 "Invalid username or password", s, sess) := by
  simp only [loginRoute, verifyLocal, h1, h2, h3]
  exact ⟨trivial, trivial⟩

/-- C4 witness: in the sample store, "nobody"/"anything" and
"alice"/"wrongpw" yield the identical generic 401. -/
theorem login_failures_indistinguishable_witness :
    loginRoute kdfA 0 "sidA" storeSample [] "nobody" "anything"
      = loginRoute kdfA 1 "sidB" storeSample [] "alice" "wrongpw" ∧
    loginRoute kdfA 0 "sidA" storeSample [] "nobody" "anything"
      = (.msg 401 "Invalid username or password", storeSample, []) :=
  login_failures_indistinguishable kdfA 0 1 "sidA" "sidB" storeSample []
    "nobody" "anything" "alice" "wrongpw" aliceSample
    (by decide) (by decide) (by decide)

/-- C5: the guard chain `isAuthenticated, hasRole(roles)` rejects an
unauthenticated request with 401 before any role check, rejects an
authenticated principal whose role is outside `roles` with 403, and passes
a principal whose role is in `roles`; it coincides with the `hasRole`
middleware alone (which re-checks authentication first). -/
theorem requireRole_guard (roles : List String) (p : Principal) :
    requireRole roles none = .reject 401 "Not authenticated" ∧
    (∀ req : Option Principal, requireRole roles req = hasRole roles req) ∧
    (p.user.role ∉ roles →
      requireRole roles (some p) = .reject 403 "Forbidden: insufficient permissions") ∧
    (p.user.role ∈ roles → requireRole roles (some p) = .next) := by
  refine ⟨rfl, ?_, ?_, ?_⟩
  · intro req
    cases req with
    | none => rfl
    | some q => rfl
  · intro h
    simp only [requireRole, isAuthenticated, hasRole]
    rw [if_neg (by simpa using h)]
  · intro h
    simp only [requireRole, isAuthenticated, hasRole]
    rw [if_pos (by simpa using h)]

/-- C5 witness: `requireRole(["admin"])` rejects the teacher principal
with 403 Forbidden and accepts the admin principal. -/
theorem requireRole_guard_witness :
    requireRole ["admin"] (some teacherPrincipal)
      = .reject 403 "Forbidden: insufficient permissions" ∧
    requireRole ["admin"] (some adminPrincipal) = .next :=
  ⟨(requireRole_guard ["admin"] teacherPrincipal).2.2.1 (by decide),
   (requireRole_guard ["admin"] adminPrincipal).2.2.2 (by decide)⟩

/-! ## Session lemmas -/

lemma getUser_setUserById (users : List UserRec) (id : Nat) (u u' : UserRec)
    (hu' : u'.id = id)
    (h : users.find? (fun v => v.id = id) = some u) :
    (setUserById users id u').find? (fun v => v.id = id) = some u' := by
  induction users with
  | nil => simp [List.find?] at h
  | cons v rest ih =>
    by_cases hv : v.id = id
    · simp [setUserById, hv, List.find?, hu']
    · have hd : decide (v.id = id) = false := decide_eq_false hv
      simp only [List.find?, hd] at h
      simp only [setUserById, if_neg hv, List.find?, hd]
      exact ih h

lemma getUser_updateUser (s : MemStorage) (id : Nat) (patch : UpdateUser)
    (u : UserRec) (h : getUser s id = some u) :
    getUser (updateUser s id patch).2 id = some (applyUserPatch u patch) := by
  have h' : s.users.find? (fun v => v.id = id) = some u := h
  have hid : u.id = id := by simpa using List.find?_some h'
  simp only [updateUser, h]
  exact getUser_setUserById s.users id u (applyUserPatch u patch) hid h'

lemma lookup_destroySession (sess : Sessions) (sid : String) :
    (destroySession sess sid).lookup sid = none := by
  induction sess with
  | nil => rfl
  | cons kv rest ih =>
    by_cases h : kv.1 = sid
    · simpa [destroySession, List.filter_cons, List.lookup, h] using ih
    · have hbeq : (sid == kv.1) = false :=
        beq_eq_false_iff_ne.mpr (Ne.symm h)
      simpa [destroySession, List.filter_cons, List.lookup, h, hbeq] using ih

/-- C6: session resolution re-derives the principal from current storage.
If the stored user's role is patched after the session was created for
principal `p`, the next resolution returns the same user id with the
freshly-loaded (patched) role, not the role captured at login time. -/
theorem resolveSession_fresh_role (s : MemStorage) (sess0 : Sessions)
    (sid : String) (p : Principal) (u : UserRec) (role' : String)
    (hu : getUser s p.user.id = some u) :
    (resolveSession (updateUser s p.user.id { role := some role' }).2
        (createSession sess0 sid p) sid).map (fun q => q.user.id)
      = some p.user.id ∧
    (resolveSession (updateUser s p.user.id { role := some role' }).2
        (createSession sess0 sid p) sid).map (fun q => q.user.role)
      = some role' := by
  have hu' : s.users.find? (fun v => v.id = p.user.id) = some u := hu
  have hid : u.id = p.user.id := by simpa using List.find?_some hu'
  have hg := getUser_updateUser s p.user.id { role := some role' } u hu
  have hlook : (createSession sess0 sid p).lookup sid = some (serializeUser p) := by
    simp [createSession, List.lookup]
  simp only [resolveSession, hlook, serializeUser, deserializeUser, hg]
  exact ⟨by simp [applyUserPatch, hid], by simp [applyUserPatch]⟩

/-- C6 witness: alice (id 7, role "teacher") logs in; her stored role is
then patched to "admin"; resolving her session yields user id 7 with role
"admin". -/
theorem resolveSession_fresh_role_witness :
    (resolveSession (updateUser storeSample 7 { role := some "admin" }).2
        (createSession [] "sid7" teacherPrincipal) "sid7").map (fun q => q.user.id)
      = some 7 ∧
    (resolveSession (updateUser storeSample 7 { role := some "admin" }).2
        (createSession [] "sid7" teacherPrincipal) "sid7").map (fun q => q.user.role)
      = some "admin" :=
  resolveSession_fresh_role storeSample [] "sid7" teacherPrincipal aliceSample
    "admin" (by decide)

/-- C7: a session whose stored user id has no user record resolves to
unauthenticated (`none`), never to a principal. -/
theorem resolveSession_dangling_none (s : MemStorage) (sess : Sessions)
    (sid : String) (uid : Nat)
    (h1 : sess.lookup sid = some uid) (h2 : getUser s uid = none) :
    resolveSession s sess sid = none := by
  simp only [resolveSession, h1, deserializeUser, h2]

/-- C7 witness: a session pointing at the nonexistent user id 99 resolves
to `none` in the sample store. -/
theorem resolveSession_dangling_none_witness :
    resolveSession storeSample [("sid1", 99)] "sid1" = none :=
  resolveSession_dangling_none storeSample [("sid1", 99)] "sid1" 99
    (by decide) (by decide)

/-- C9: a destroyed session never again resolves to a principal, the
destruction is idempotent (destroying an absent or already-destroyed
session id is a no-op, not an error), and the logout route's resulting
session store is exactly the destroyed one. -/
theorem destroySession_resolves_none (now : Nat) (s : MemStorage)
    (sess : Sessions) (sid : String) :
    resolveSession s (destroySession sess sid) sid = none ∧
    destroySession (destroySession sess sid) sid = destroySession sess sid ∧
    (logoutRoute now s sess sid).2.2 = destroySession sess sid := by
  refine ⟨?_, ?_, rfl⟩
  · simp only [resolveSession, lookup_destroySession]
  · unfold destroySession
    rw [List.filter_filter]
    simp

/-- C10: a registration request whose username already exists fails with
the 400 duplicate response and leaves the storage and session store
exactly unchanged: no user, student or activity record is created and no
session is established. -/
theorem registerRoute_duplicate_unchanged (kdf : KDF) (randomness : List Byte)
    (studentRand now : Nat) (sid : String) (s : MemStorage) (sess : Sessions)
    (req : RegisterRequest) (u : UserRec)
    (h : getUserByUsername s req.username = some u) :
    registerRoute kdf randomness studentRand now sid s sess req
      = (.msg 400 "Username already exists", s, sess) := by
  simp only [registerRoute, h]

/-- C10 witness: re-registering "alice" in the sample store answers 400
and leaves the store and sessions untouched. -/
theorem registerRoute_duplicate_unchanged_witness :
    registerRoute kdfA [] 0 0 "sidX" storeSample []
      { username := "alice", password := "x", firstName := "A", lastName := "B"
        email := "q@x", role := "student", avatarUrl := none, grade := none
        parentName := none, parentEmail := none, parentPhone := none
        address := none }
      = (.msg 400 "Username already exists", storeSample, []) :=
  registerRoute_duplicate_unchanged kdfA [] 0 0 "sidX" storeSample [] _
    aliceSample (by decide)

end ERP
